import Mathlib

/-
  Verification of the specification of vtkLabeledDataMapper
  (src/Rendering/vtkLabeledDataMapper.h) against a shallow embedding of
  the class.  The repository contains only the class declaration header;
  inline method bodies and the accessor macros visible in the header are
  embedded directly, while operations whose bodies live in the missing
  implementation file are modelled from the specification and from the
  Description comments of the header, and are marked as such in their
  doc comments.
-/

namespace VtkLabeledDataMapper

/-- Label mode constant VTK_LABEL_IDS (header line 54). -/
def VTK_LABEL_IDS : Int := 0

/-- Label mode constant VTK_LABEL_SCALARS (header line 55). -/
def VTK_LABEL_SCALARS : Int := 1

/-- Label mode constant VTK_LABEL_VECTORS (header line 56). -/
def VTK_LABEL_VECTORS : Int := 2

/-- Label mode constant VTK_LABEL_NORMALS (header line 57). -/
def VTK_LABEL_NORMALS : Int := 3

/-- Label mode constant VTK_LABEL_TCOORDS (header line 58). -/
def VTK_LABEL_TCOORDS : Int := 4

/-- Label mode constant VTK_LABEL_TENSORS (header line 59). -/
def VTK_LABEL_TENSORS : Int := 5

/-- Label mode constant VTK_LABEL_FIELD_DATA (header line 60). -/
def VTK_LABEL_FIELD_DATA : Int := 6

/-- Enumerator WORLD of the Coordinates enum (header line 164). -/
def WORLD : Int := 0

/-- Enumerator DISPLAY of the Coordinates enum (header line 165). -/
def DISPLAY : Int := 1

/-- The state of a vtkLabeledDataMapper object: the protected instance
variables declared at header lines 185 to 200.  Toolkit objects held by
pointer (the input data object, the caller supplied transform, text
properties and the child text mappers) are represented by object
identifiers (Nat), with Option modelling a possibly NULL pointer.
Strings owned by the object are Option String, none modelling NULL. -/
structure MapperState where
  Input : Option Nat
  LabelFormat : Option String
  LabelMode : Int
  LabeledComponent : Int
  FieldDataArray : Int
  FieldDataName : Option String
  CoordinateSystem : Int
  NumberOfLabels : Int
  NumberOfLabelsAllocated : Int
  TextMappers : List Nat
  Transform : Option Nat
  LabelTextProperties : List (Int × Option Nat)
  deriving Repr, DecidableEq

/-- Update of an association list keyed by label type, used to model the
map of per-type text properties held by the Implementation object
(header lines 208 to 211). -/
def setAssoc (k : Int) (v : Option Nat) : List (Int × Option Nat) → List (Int × Option Nat)
  | [] => [(k, v)]
  | (k2, v2) :: rest => if k2 = k then (k, v) :: rest else (k2, v2) :: setAssoc k v rest

/-- Lookup in the association list of per-type text properties; none when
the type has no entry, matching a NULL result. -/
def getAssoc (k : Int) : List (Int × Option Nat) → Option Nat
  | [] => none
  | (k2, v2) :: rest => if k2 = k then v2 else getAssoc k rest

/-- Modelled from the spec: the constructor body is in the missing
implementation file.  The header documents the defaults (lines 66 to 67:
label format %-#6.3g, point ids labeled; line 91: LabeledComponent is -1
by default), and the spec describes an array of child objects resized on
demand, so the new object starts with no labels built and no child text
mappers allocated, in the WORLD coordinate system. -/
def newMapper : MapperState :=
  { Input := none
    LabelFormat := some "%-#6.3g"
    LabelMode := VTK_LABEL_IDS
    LabeledComponent := -1
    FieldDataArray := 0
    FieldDataName := none
    CoordinateSystem := WORLD
    NumberOfLabels := 0
    NumberOfLabelsAllocated := 0
    TextMappers := []
    Transform := none
    LabelTextProperties := [] }

/-- Embedding of vtkSetStringMacro(LabelFormat) (header line 84): the
macro stores a fresh copy of the argument string, or NULL when the
argument is NULL; value semantics of String model the copy. -/
def SetLabelFormat (s : Option String) (st : MapperState) : MapperState :=
  { st with LabelFormat := s }

/-- Embedding of vtkGetStringMacro(LabelFormat) (header line 85). -/
def GetLabelFormat (st : MapperState) : Option String :=
  st.LabelFormat

/-- Embedding of vtkSetMacro(LabeledComponent,int) (header line 93). -/
def SetLabeledComponent (c : Int) (st : MapperState) : MapperState :=
  { st with LabeledComponent := c }

/-- Embedding of vtkGetMacro(LabeledComponent,int) (header line 94). -/
def GetLabeledComponent (st : MapperState) : Int :=
  st.LabeledComponent

/-- Modelled from the spec: the body of SetFieldDataArray (declared at
header line 100) is in the missing implementation file.  The header
Description (lines 97 to 99) states that it sets the field data array to
label and clears FieldDataName when set. -/
def SetFieldDataArray (arrayIndex : Int) (st : MapperState) : MapperState :=
  { st with FieldDataArray := arrayIndex, FieldDataName := none }

/-- Embedding of vtkGetMacro(FieldDataArray,int) (header line 101). -/
def GetFieldDataArray (st : MapperState) : Int :=
  st.FieldDataArray

/-- Modelled from the spec: the body of SetFieldDataName (declared at
header line 107) is in the missing implementation file.  The header
Description (lines 104 to 106) states that it stores the name of the
field data array to label, which overrides FieldDataArray when set. -/
def SetFieldDataName (arrayName : Option String) (st : MapperState) : MapperState :=
  { st with FieldDataName := arrayName }

/-- Embedding of vtkGetStringMacro(FieldDataName) (header line 108). -/
def GetFieldDataName (st : MapperState) : Option String :=
  st.FieldDataName

/-- Modelled from the spec: the body of SetInput (declared at header
line 112) is in the missing implementation file; per line 111 it sets
the input data object of the mapper. -/
def SetInput (d : Option Nat) (st : MapperState) : MapperState :=
  { st with Input := d }

/-- Embedding of vtkSetMacro(LabelMode, int) (header line 123). -/
def SetLabelMode (m : Int) (st : MapperState) : MapperState :=
  { st with LabelMode := m }

/-- Embedding of vtkGetMacro(LabelMode, int) (header line 124). -/
def GetLabelMode (st : MapperState) : Int :=
  st.LabelMode

/-- Inline body at header line 125: SetLabelMode(VTK_LABEL_IDS). -/
def SetLabelModeToLabelIds (st : MapperState) : MapperState :=
  SetLabelMode VTK_LABEL_IDS st

/-- Inline body at header line 126: SetLabelMode(VTK_LABEL_SCALARS). -/
def SetLabelModeToLabelScalars (st : MapperState) : MapperState :=
  SetLabelMode VTK_LABEL_SCALARS st

/-- Inline body at header line 127: SetLabelMode(VTK_LABEL_VECTORS). -/
def SetLabelModeToLabelVectors (st : MapperState) : MapperState :=
  SetLabelMode VTK_LABEL_VECTORS st

/-- Inline body at header line 128: SetLabelMode(VTK_LABEL_NORMALS). -/
def SetLabelModeToLabelNormals (st : MapperState) : MapperState :=
  SetLabelMode VTK_LABEL_NORMALS st

/-- Inline body at header line 129: SetLabelMode(VTK_LABEL_TCOORDS). -/
def SetLabelModeToLabelTCoords (st : MapperState) : MapperState :=
  SetLabelMode VTK_LABEL_TCOORDS st

/-- Inline body at header line 130: SetLabelMode(VTK_LABEL_TENSORS). -/
def SetLabelModeToLabelTensors (st : MapperState) : MapperState :=
  SetLabelMode VTK_LABEL_TENSORS st

/-- Inline body at header lines 131 to 132: SetLabelMode(VTK_LABEL_FIELD_DATA). -/
def SetLabelModeToLabelFieldData (st : MapperState) : MapperState :=
  SetLabelMode VTK_LABEL_FIELD_DATA st

/-- Modelled from the spec: the body of the typed text property setter
(declared at header line 143) is in the missing implementation file; per
lines 135 to 138 it records the text property for the given label type. -/
def SetLabelTextPropertyTyped (p : Option Nat) (ty : Int) (st : MapperState) : MapperState :=
  { st with LabelTextProperties := setAssoc ty p st.LabelTextProperties }

/-- Modelled from the spec: the body of the typed text property getter
(declared at header line 144) is in the missing implementation file; it
returns the text property recorded for the given label type. -/
def GetLabelTextPropertyTyped (ty : Int) (st : MapperState) : Option Nat :=
  getAssoc ty st.LabelTextProperties

/-- Inline body at header lines 139 to 140: the zero argument setter
calls SetLabelTextProperty(p, 0). -/
def SetLabelTextProperty (p : Option Nat) (st : MapperState) : MapperState :=
  SetLabelTextPropertyTyped p 0 st

/-- Inline body at header lines 141 to 142: the zero argument getter
returns GetLabelTextProperty(0). -/
def GetLabelTextProperty (st : MapperState) : Option Nat :=
  GetLabelTextPropertyTyped 0 st

/-- Modelled from the spec: the body of SetTransform (declared at header
line 158) is in the missing implementation file; per lines 155 to 157 it
stores the transform to apply to the labels before mapping to 2D. -/
def SetTransform (t : Option Nat) (st : MapperState) : MapperState :=
  { st with Transform := t }

/-- Embedding of vtkGetObjectMacro(Transform, vtkTransform) (header
line 157): returns the stored transform pointer. -/
def GetTransform (st : MapperState) : Option Nat :=
  st.Transform

/-- Embedding of vtkSetClampMacro(CoordinateSystem,int,WORLD,DISPLAY)
(header line 173): the Clamp macro of the toolkit stores the argument
clamped into the closed range from WORLD to DISPLAY. -/
def SetCoordinateSystem (x : Int) (st : MapperState) : MapperState :=
  { st with CoordinateSystem :=
      if x < WORLD then WORLD else if x > DISPLAY then DISPLAY else x }

/-- Embedding of vtkGetMacro(CoordinateSystem,int) (header line 172). -/
def GetCoordinateSystem (st : MapperState) : Int :=
  st.CoordinateSystem

/-- Inline body at header line 174: SetCoordinateSystem(WORLD). -/
def CoordinateSystemWorld (st : MapperState) : MapperState :=
  SetCoordinateSystem WORLD st

/-- Inline body at header line 175: SetCoordinateSystem(DISPLAY). -/
def CoordinateSystemDisplay (st : MapperState) : MapperState :=
  SetCoordinateSystem DISPLAY st

/-- Modelled from the spec: the body of AllocateLabels (declared at
header line 204) is in the missing implementation file.  The spec
describes the array of child text mapper objects as resized on demand:
when the request exceeds the current allocation the array of child
text mappers is reallocated to the requested size (fresh, pairwise
distinct child objects, here the identifiers 0 to numLabels - 1), and
otherwise the existing allocation is kept. -/
def AllocateLabels (numLabels : Int) (st : MapperState) : MapperState :=
  if st.NumberOfLabelsAllocated < numLabels then
    { st with NumberOfLabelsAllocated := numLabels
              TextMappers := List.range numLabels.toNat }
  else st

/-- Modelled from the spec: the body of BuildLabels (declared at header
line 205) is in the missing implementation file.  It builds one text
label per input point: it allocates room for numPts labels and records
that numPts labels have been built. -/
def BuildLabels (numPts : Nat) (st : MapperState) : MapperState :=
  let st2 := AllocateLabels (Int.ofNat numPts) st
  { st2 with NumberOfLabels := Int.ofNat numPts }

/-- An invocation of a child text mapper by the rendering methods:
either the RenderOverlay or the RenderOpaqueGeometry of the child with
the given identifier. -/
inductive RenderCall where
  | textOverlay (mapperId : Nat)
  | textOpaque (mapperId : Nat)
  deriving Repr, DecidableEq

/-- Modelled from the spec: the body of RenderOverlay (declared at
header line 149) is in the missing implementation file.  The spec says
glyph rendering is delegated to a companion text mapper object per
label, so the method emits, for each built label i, one RenderOverlay
invocation of the i-th child text mapper, in order. -/
def RenderOverlay (st : MapperState) : List RenderCall :=
  (st.TextMappers.take st.NumberOfLabels.toNat).map RenderCall.textOverlay

/-- Modelled from the spec: the body of RenderOpaqueGeometry (declared
at header line 148) is in the missing implementation file.  As with
RenderOverlay, it delegates label i to the i-th child text mapper. -/
def RenderOpaqueGeometry (st : MapperState) : List RenderCall :=
  (st.TextMappers.take st.NumberOfLabels.toNat).map RenderCall.textOpaque

/-- Modelled from the spec: the body of ReleaseGraphicsResources
(declared at header line 153) is in the missing implementation file; it
forwards the release to the child text mappers and changes none of the
instance variables modelled here. -/
def ReleaseGraphicsResources (st : MapperState) : MapperState :=
  st

/-- The allocation invariant of the label array: the number of built
labels is between zero and the allocation, and the child array holds
exactly the allocated number of pairwise distinct text mappers. -/
def Inv (st : MapperState) : Prop :=
  0 ≤ st.NumberOfLabels ∧
  st.NumberOfLabels ≤ st.NumberOfLabelsAllocated ∧
  st.TextMappers.length = st.NumberOfLabelsAllocated.toNat ∧
  st.TextMappers.Nodup

instance (st : MapperState) : Decidable (Inv st) := by
  unfold Inv; infer_instance

/-- The coordinate system invariant: CoordinateSystem is WORLD or
DISPLAY. -/
def CSInv (st : MapperState) : Prop :=
  st.CoordinateSystem = WORLD ∨ st.CoordinateSystem = DISPLAY

instance (st : MapperState) : Decidable (CSInv st) := by
  unfold CSInv; infer_instance

/-- A parameter or return type appearing in the rendering entry points
of the header. -/
inductive CType where
  | voidT
  | dataObjectPtr
  | viewportPtr
  | actor2DPtr
  | windowPtr
  deriving Repr, DecidableEq

/-- A method signature: name, parameter types, return type. -/
structure MethodSig where
  name : String
  params : List CType
  ret : CType
  deriving Repr, DecidableEq

/-- The rendering entry points the class declares, read off the header:
SetInput(vtkDataObject*) at line 112, RenderOpaqueGeometry(vtkViewport*,
vtkActor2D*) at line 148, RenderOverlay(vtkViewport*, vtkActor2D*) at
line 149, ReleaseGraphicsResources(vtkWindow*) at line 153; the header
declares no other rendering entry point. -/
def renderingEntryPoints : List MethodSig :=
  [ ⟨"SetInput", [CType.dataObjectPtr], CType.voidT⟩,
    ⟨"RenderOpaqueGeometry", [CType.viewportPtr, CType.actor2DPtr], CType.voidT⟩,
    ⟨"RenderOverlay", [CType.viewportPtr, CType.actor2DPtr], CType.voidT⟩,
    ⟨"ReleaseGraphicsResources", [CType.windowPtr], CType.voidT⟩ ]

/-- Modelled from the spec: the vtkMapper2D base class is not among the
sources.  The spec states that every externally visible operation
(SetInput, RenderOpaqueGeometry, RenderOverlay, ReleaseGraphicsResources)
is a callback contract dictated by the host rendering framework, so the
contract consists of exactly those four signatures. -/
def mapper2DContract : List MethodSig :=
  [ ⟨"SetInput", [CType.dataObjectPtr], CType.voidT⟩,
    ⟨"RenderOpaqueGeometry", [CType.viewportPtr, CType.actor2DPtr], CType.voidT⟩,
    ⟨"RenderOverlay", [CType.viewportPtr, CType.actor2DPtr], CType.voidT⟩,
    ⟨"ReleaseGraphicsResources", [CType.windowPtr], CType.voidT⟩ ]

/-- The field data selector in effect when field data is labeled:
either the named array or the indexed array. -/
inductive FieldDataSelector where
  | byName (s : String)
  | byIndex (i : Int)
  deriving Repr, DecidableEq

/-- The selector in effect, per the header Description at lines 104 to
106: a set FieldDataName overrides FieldDataArray, otherwise the array
index selects. -/
def effectiveFieldDataSelector (st : MapperState) : FieldDataSelector :=
  match st.FieldDataName with
  | some n => FieldDataSelector.byName n
  | none => FieldDataSelector.byIndex st.FieldDataArray

/-- Shared helper: lookup after update at the same key returns the value
just stored. -/
theorem getAssoc_setAssoc (k : Int) (v : Option Nat) :
    ∀ l : List (Int × Option Nat), getAssoc k (setAssoc k v l) = v
  | [] => by simp [setAssoc, getAssoc]
  | (k2, v2) :: rest => by
    by_cases h : k2 = k
    · simp [setAssoc, getAssoc, h]
    · simp [setAssoc, getAssoc, h, getAssoc_setAssoc k v rest]

/-- Shared helper: AllocateLabels touches only the allocation fields. -/
theorem allocateLabels_preserves (n : Int) (st : MapperState) :
    (AllocateLabels n st).LabelFormat = st.LabelFormat ∧
    (AllocateLabels n st).Transform = st.Transform ∧
    (AllocateLabels n st).CoordinateSystem = st.CoordinateSystem ∧
    (AllocateLabels n st).NumberOfLabels = st.NumberOfLabels := by
  unfold AllocateLabels
  split <;> exact ⟨rfl, rfl, rfl, rfl⟩

/-- Shared helper: BuildLabels touches only the label count and the
allocation fields. -/
theorem buildLabels_preserves (k : Nat) (st : MapperState) :
    (BuildLabels k st).LabelFormat = st.LabelFormat ∧
    (BuildLabels k st).Transform = st.Transform ∧
    (BuildLabels k st).CoordinateSystem = st.CoordinateSystem := by
  have h := allocateLabels_preserves (Int.ofNat k) st
  exact ⟨h.1, h.2.1, h.2.2.1⟩

/-- Shared helper: after AllocateLabels n, the allocation is at least n. -/
theorem allocateLabels_ge (n : Int) (st : MapperState) :
    n ≤ (AllocateLabels n st).NumberOfLabelsAllocated := by
  unfold AllocateLabels
  split
  · exact le_refl n
  · omega

/-- Shared helper: AllocateLabels is the identity when the request does
not exceed the current allocation. -/
theorem allocateLabels_noop (n : Int) (st : MapperState)
    (h : n ≤ st.NumberOfLabelsAllocated) : AllocateLabels n st = st := by
  unfold AllocateLabels
  split
  · exfalso; omega
  · rfl

/-- Shared helper: AllocateLabels preserves the allocation invariant. -/
theorem inv_allocateLabels (n : Int) (st : MapperState) (h : Inv st) :
    Inv (AllocateLabels n st) := by
  obtain ⟨h1, h2, h3, h4⟩ := h
  unfold Inv AllocateLabels
  split
  · dsimp only
    exact ⟨h1, by omega, by simp, List.nodup_range _⟩
  · exact ⟨h1, h2, h3, h4⟩

/-- Shared helper: BuildLabels preserves the allocation invariant. -/
theorem inv_buildLabels (k : Nat) (st : MapperState) (h : Inv st) :
    Inv (BuildLabels k st) := by
  have hge := allocateLabels_ge (Int.ofNat k) st
  obtain ⟨a1, a2, a3, a4⟩ := inv_allocateLabels (Int.ofNat k) st h
  refine ⟨?_, ?_, a3, a4⟩
  · show (0 : Int) ≤ Int.ofNat k
    exact Int.natCast_nonneg k
  · show Int.ofNat k ≤ (AllocateLabels (Int.ofNat k) st).NumberOfLabelsAllocated
    exact hge

/-- Shared helper: SetCoordinateSystem always lands in the enum range. -/
theorem csinv_setCoordinateSystem (x : Int) (st : MapperState) :
    CSInv (SetCoordinateSystem x st) := by
  unfold CSInv SetCoordinateSystem WORLD DISPLAY
  dsimp only
  split_ifs <;> omega

/-- Shared helper: SetCoordinateSystem applied to WORLD or DISPLAY leaves
the coordinate system in the enum range, and any operation that does not
touch CoordinateSystem preserves CSInv; here for AllocateLabels. -/
theorem csinv_allocateLabels (n : Int) (st : MapperState) (h : CSInv st) :
    CSInv (AllocateLabels n st) := by
  unfold CSInv at h ⊢
  rw [(allocateLabels_preserves n st).2.2.1]
  exact h

/-- Shared helper: BuildLabels preserves CSInv. -/
theorem csinv_buildLabels (k : Nat) (st : MapperState) (h : CSInv st) :
    CSInv (BuildLabels k st) := by
  unfold CSInv at h ⊢
  rw [(buildLabels_preserves k st).2.2]
  exact h

/-- C1 counterexample: the claim says the set of labelable items is
exactly point ids, scalar components, vector components, tensor
components, and field-data values; but the convenience method
SetLabelModeToLabelNormals, declared in the header, puts the mapper in
a label mode (VTK_LABEL_NORMALS) that is none of the five claimed
items, so the set of labelable items is strictly larger. -/
theorem C1_counterexample :
    GetLabelMode (SetLabelModeToLabelNormals newMapper) ∉
      [VTK_LABEL_IDS, VTK_LABEL_SCALARS, VTK_LABEL_VECTORS,
       VTK_LABEL_TENSORS, VTK_LABEL_FIELD_DATA] := by
  decide

/-- C1 (amended): the set of items the mapper can label comprises seven
modes: point ids, scalars, vectors, normals, texture coordinates,
tensors, and field data; each SetLabelModeTo* convenience method sets
LabelMode so that GetLabelMode subsequently returns the corresponding
mode constant, SetLabelMode stores any requested mode verbatim, and the
seven mode constants are pairwise distinct. -/
theorem C1_label_modes (st : MapperState) :
    GetLabelMode (SetLabelModeToLabelIds st) = VTK_LABEL_IDS ∧
    GetLabelMode (SetLabelModeToLabelScalars st) = VTK_LABEL_SCALARS ∧
    GetLabelMode (SetLabelModeToLabelVectors st) = VTK_LABEL_VECTORS ∧
    GetLabelMode (SetLabelModeToLabelNormals st) = VTK_LABEL_NORMALS ∧
    GetLabelMode (SetLabelModeToLabelTCoords st) = VTK_LABEL_TCOORDS ∧
    GetLabelMode (SetLabelModeToLabelTensors st) = VTK_LABEL_TENSORS ∧
    GetLabelMode (SetLabelModeToLabelFieldData st) = VTK_LABEL_FIELD_DATA ∧
    (∀ m : Int, GetLabelMode (SetLabelMode m st) = m) ∧
    [VTK_LABEL_IDS, VTK_LABEL_SCALARS, VTK_LABEL_VECTORS, VTK_LABEL_NORMALS,
     VTK_LABEL_TCOORDS, VTK_LABEL_TENSORS, VTK_LABEL_FIELD_DATA].Nodup :=
  ⟨rfl, rfl, rfl, rfl, rfl, rfl, rfl, fun _ => rfl, by decide⟩

/-- C2: the externally visible rendering entry points the class declares
are exactly SetInput(vtkDataObject*), RenderOpaqueGeometry(vtkViewport*,
vtkActor2D*), RenderOverlay(vtkViewport*, vtkActor2D*) and
ReleaseGraphicsResources(vtkWindow*), each with the signature of the
vtkMapper2D callback contract, and no others. -/
theorem C2_entry_points :
    renderingEntryPoints = mapper2DContract ∧
    renderingEntryPoints.map MethodSig.name =
      ["SetInput", "RenderOpaqueGeometry", "RenderOverlay",
       "ReleaseGraphicsResources"] :=
  ⟨rfl, rfl⟩

/-- C3: for every non-null string s, after SetLabelFormat(s) the getter
GetLabelFormat returns a string equal to s, and no other operation of
the class changes the stored format. -/
theorem C3_label_format (s : String) (st : MapperState) (m c fi x n : Int)
    (fn : Option String) (p d t : Option Nat) (k : Nat) :
    GetLabelFormat (SetLabelFormat (some s) st) = some s ∧
    GetLabelFormat (SetLabelMode m st) = GetLabelFormat st ∧
    GetLabelFormat (SetLabelModeToLabelIds st) = GetLabelFormat st ∧
    GetLabelFormat (SetLabelModeToLabelScalars st) = GetLabelFormat st ∧
    GetLabelFormat (SetLabelModeToLabelVectors st) = GetLabelFormat st ∧
    GetLabelFormat (SetLabelModeToLabelNormals st) = GetLabelFormat st ∧
    GetLabelFormat (SetLabelModeToLabelTCoords st) = GetLabelFormat st ∧
    GetLabelFormat (SetLabelModeToLabelTensors st) = GetLabelFormat st ∧
    GetLabelFormat (SetLabelModeToLabelFieldData st) = GetLabelFormat st ∧
    GetLabelFormat (SetLabeledComponent c st) = GetLabelFormat st ∧
    GetLabelFormat (SetFieldDataArray fi st) = GetLabelFormat st ∧
    GetLabelFormat (SetFieldDataName fn st) = GetLabelFormat st ∧
    GetLabelFormat (SetInput d st) = GetLabelFormat st ∧
    GetLabelFormat (SetLabelTextPropertyTyped p x st) = GetLabelFormat st ∧
    GetLabelFormat (SetLabelTextProperty p st) = GetLabelFormat st ∧
    GetLabelFormat (SetTransform t st) = GetLabelFormat st ∧
    GetLabelFormat (SetCoordinateSystem x st) = GetLabelFormat st ∧
    GetLabelFormat (CoordinateSystemWorld st) = GetLabelFormat st ∧
    GetLabelFormat (CoordinateSystemDisplay st) = GetLabelFormat st ∧
    GetLabelFormat (AllocateLabels n st) = GetLabelFormat st ∧
    GetLabelFormat (BuildLabels k st) = GetLabelFormat st ∧
    GetLabelFormat (ReleaseGraphicsResources st) = GetLabelFormat st :=
  ⟨rfl, rfl, rfl, rfl, rfl, rfl, rfl, rfl, rfl, rfl, rfl, rfl, rfl, rfl,
   rfl, rfl, rfl, rfl, rfl, (allocateLabels_preserves n st).1,
   (buildLabels_preserves k st).1, rfl⟩

/-- C4: AllocateLabels(n) establishes an allocation of at least n, it is
the identity when n does not exceed the current allocation, and the
invariant that the number of built labels lies between zero and the
allocation (with one allocated child text mapper per slot) holds for a
new mapper and is preserved by every operation of the class. -/
theorem C4_allocation (n : Int) (k : Nat) (st : MapperState)
    (s fn : Option String) (m c fi x : Int) (p d t : Option Nat)
    (h : Inv st) :
    n ≤ (AllocateLabels n st).NumberOfLabelsAllocated ∧
    (n ≤ st.NumberOfLabelsAllocated → AllocateLabels n st = st) ∧
    Inv newMapper ∧
    Inv (AllocateLabels n st) ∧
    Inv (BuildLabels k st) ∧
    Inv (SetLabelFormat s st) ∧
    Inv (SetLabelMode m st) ∧
    Inv (SetLabelModeToLabelIds st) ∧
    Inv (SetLabelModeToLabelScalars st) ∧
    Inv (SetLabelModeToLabelVectors st) ∧
    Inv (SetLabelModeToLabelNormals st) ∧
    Inv (SetLabelModeToLabelTCoords st) ∧
    Inv (SetLabelModeToLabelTensors st) ∧
    Inv (SetLabelModeToLabelFieldData st) ∧
    Inv (SetLabeledComponent c st) ∧
    Inv (SetFieldDataArray fi st) ∧
    Inv (SetFieldDataName fn st) ∧
    Inv (SetInput d st) ∧
    Inv (SetLabelTextPropertyTyped p x st) ∧
    Inv (SetLabelTextProperty p st) ∧
    Inv (SetTransform t st) ∧
    Inv (SetCoordinateSystem x st) ∧
    Inv (CoordinateSystemWorld st) ∧
    Inv (CoordinateSystemDisplay st) ∧
    Inv (ReleaseGraphicsResources st) :=
  ⟨allocateLabels_ge n st, fun hle => allocateLabels_noop n st hle,
   by decide, inv_allocateLabels n st h, inv_buildLabels k st h,
   h, h, h, h, h, h, h, h, h, h, h, h, h, h, h, h, h, h, h, h⟩

/-- C4 witness: the allocation bound and invariant hold concretely for a
request of three labels on a freshly constructed mapper. -/
theorem C4_allocation_witness :
    (3 : Int) ≤ (AllocateLabels 3 newMapper).NumberOfLabelsAllocated :=
  (C4_allocation 3 2 newMapper none none 0 0 0 0 none none none
    (by decide)).1

/-- C5: for every built label i there is a child text mapper, rendering
emits exactly one child invocation per built label, the i-th overlay and
opaque-geometry invocations address the i-th child text mapper, and the
child text mappers are pairwise distinct. -/
theorem C5_delegation (st : MapperState) (i : Nat) (h : Inv st)
    (hi : i < st.NumberOfLabels.toNat) :
    (RenderOverlay st).length = st.NumberOfLabels.toNat ∧
    (RenderOpaqueGeometry st).length = st.NumberOfLabels.toNat ∧
    (RenderOverlay st)[i]? = (st.TextMappers[i]?).map RenderCall.textOverlay ∧
    (RenderOpaqueGeometry st)[i]? =
      (st.TextMappers[i]?).map RenderCall.textOpaque ∧
    st.TextMappers.Nodup := by
  obtain ⟨h1, h2, h3, h4⟩ := h
  have hlen : st.NumberOfLabels.toNat ≤ st.TextMappers.length := by
    rw [h3]; exact Int.toNat_le_toNat h2
  refine ⟨?_, ?_, ?_, ?_, h4⟩
  · simp [RenderOverlay]; omega
  · simp [RenderOpaqueGeometry]; omega
  · simp [RenderOverlay, List.getElem?_take, hi]
  · simp [RenderOpaqueGeometry, List.getElem?_take, hi]

/-- C5 witness: on a mapper that has built three labels, the second
overlay invocation addresses the second child text mapper. -/
theorem C5_delegation_witness :
    (RenderOverlay (BuildLabels 3 newMapper))[1]? =
      ((BuildLabels 3 newMapper).TextMappers[1]?).map RenderCall.textOverlay :=
  (C5_delegation (BuildLabels 3 newMapper) 1 (by decide) (by decide)).2.2.1

/-- C6: after SetTransform(t) the getter GetTransform returns t, and no
operation other than SetTransform replaces the stored transform. -/
theorem C6_transform (t : Option Nat) (st : MapperState) (m c fi x n : Int)
    (s fn : Option String) (p d : Option Nat) (k : Nat) :
    GetTransform (SetTransform t st) = t ∧
    GetTransform (SetLabelFormat s st) = GetTransform st ∧
    GetTransform (SetLabelMode m st) = GetTransform st ∧
    GetTransform (SetLabelModeToLabelIds st) = GetTransform st ∧
    GetTransform (SetLabelModeToLabelScalars st) = GetTransform st ∧
    GetTransform (SetLabelModeToLabelVectors st) = GetTransform st ∧
    GetTransform (SetLabelModeToLabelNormals st) = GetTransform st ∧
    GetTransform (SetLabelModeToLabelTCoords st) = GetTransform st ∧
    GetTransform (SetLabelModeToLabelTensors st) = GetTransform st ∧
    GetTransform (SetLabelModeToLabelFieldData st) = GetTransform st ∧
    GetTransform (SetLabeledComponent c st) = GetTransform st ∧
    GetTransform (SetFieldDataArray fi st) = GetTransform st ∧
    GetTransform (SetFieldDataName fn st) = GetTransform st ∧
    GetTransform (SetInput d st) = GetTransform st ∧
    GetTransform (SetLabelTextPropertyTyped p x st) = GetTransform st ∧
    GetTransform (SetLabelTextProperty p st) = GetTransform st ∧
    GetTransform (SetCoordinateSystem x st) = GetTransform st ∧
    GetTransform (CoordinateSystemWorld st) = GetTransform st ∧
    GetTransform (CoordinateSystemDisplay st) = GetTransform st ∧
    GetTransform (AllocateLabels n st) = GetTransform st ∧
    GetTransform (BuildLabels k st) = GetTransform st ∧
    GetTransform (ReleaseGraphicsResources st) = GetTransform st :=
  ⟨rfl, rfl, rfl, rfl, rfl, rfl, rfl, rfl, rfl, rfl, rfl, rfl, rfl, rfl,
   rfl, rfl, rfl, rfl, rfl, (allocateLabels_preserves n st).2.1,
   (buildLabels_preserves k st).2.1, rfl⟩

/-- C8: after SetCoordinateSystem(x) the getter returns x clamped into
the range WORLD to DISPLAY, CoordinateSystemWorld and
CoordinateSystemDisplay make it exactly 0 and 1, and the invariant that
CoordinateSystem is 0 or 1 holds for a new mapper and is preserved by
every operation of the class. -/
theorem C8_coordinate_clamp (x : Int) (st : MapperState)
    (s fn : Option String) (m c fi n : Int) (p d t : Option Nat) (k : Nat)
    (h : CSInv st) :
    GetCoordinateSystem (SetCoordinateSystem x st) =
      (if x < 0 then 0 else if x > 1 then 1 else x) ∧
    GetCoordinateSystem (CoordinateSystemWorld st) = 0 ∧
    GetCoordinateSystem (CoordinateSystemDisplay st) = 1 ∧
    CSInv newMapper ∧
    CSInv (SetCoordinateSystem x st) ∧
    CSInv (CoordinateSystemWorld st) ∧
    CSInv (CoordinateSystemDisplay st) ∧
    CSInv (SetLabelFormat s st) ∧
    CSInv (SetLabelMode m st) ∧
    CSInv (SetLabelModeToLabelIds st) ∧
    CSInv (SetLabelModeToLabelScalars st) ∧
    CSInv (SetLabelModeToLabelVectors st) ∧
    CSInv (SetLabelModeToLabelNormals st) ∧
    CSInv (SetLabelModeToLabelTCoords st) ∧
    CSInv (SetLabelModeToLabelTensors st) ∧
    CSInv (SetLabelModeToLabelFieldData st) ∧
    CSInv (SetLabeledComponent c st) ∧
    CSInv (SetFieldDataArray fi st) ∧
    CSInv (SetFieldDataName fn st) ∧
    CSInv (SetInput d st) ∧
    CSInv (SetLabelTextPropertyTyped p x st) ∧
    CSInv (SetLabelTextProperty p st) ∧
    CSInv (SetTransform t st) ∧
    CSInv (AllocateLabels n st) ∧
    CSInv (BuildLabels k st) ∧
    CSInv (ReleaseGraphicsResources st) :=
  ⟨rfl, rfl, rfl, by decide, csinv_setCoordinateSystem x st,
   csinv_setCoordinateSystem WORLD st, csinv_setCoordinateSystem DISPLAY st,
   h, h, h, h, h, h, h, h, h, h, h, h, h, h, h, h,
   csinv_allocateLabels n st h, csinv_buildLabels k st h, h⟩

/-- C8 witness: setting the coordinate system to 5 on a new mapper
stores the clamped value. -/
theorem C8_coordinate_clamp_witness :
    GetCoordinateSystem (SetCoordinateSystem 5 newMapper) =
      (if (5 : Int) < 0 then 0 else if (5 : Int) > 1 then 1 else 5) :=
  (C8_coordinate_clamp 5 newMapper none none 0 0 0 0 none none none 0
    (by decide)).1

/-- C9: the zero-argument text property accessors coincide with the
typed ones at type 0: SetLabelTextProperty(p) has exactly the effect of
SetLabelTextProperty(p, 0), GetLabelTextProperty() returns the same
result as GetLabelTextProperty(0), and the stored property reads back. -/
theorem C9_text_property_default (p : Option Nat) (st : MapperState) :
    SetLabelTextProperty p st = SetLabelTextPropertyTyped p 0 st ∧
    GetLabelTextProperty st = GetLabelTextPropertyTyped 0 st ∧
    GetLabelTextProperty (SetLabelTextProperty p st) = p ∧
    GetLabelTextPropertyTyped 0 (SetLabelTextPropertyTyped p 0 st) = p :=
  ⟨rfl, rfl, getAssoc_setAssoc 0 p st.LabelTextProperties,
   getAssoc_setAssoc 0 p st.LabelTextProperties⟩

/-- C10: after SetFieldDataArray(i) the getter GetFieldDataArray
returns i and FieldDataName is cleared, so the index selects; a name
set via SetFieldDataName takes precedence over FieldDataArray; hence at
most one selector is in effect at any time. -/
theorem C10_field_data (i : Int) (s nm : String) (st : MapperState)
    (h : st.FieldDataName = some nm) :
    GetFieldDataArray (SetFieldDataArray i st) = i ∧
    GetFieldDataName (SetFieldDataArray i st) = none ∧
    effectiveFieldDataSelector (SetFieldDataArray i st) =
      FieldDataSelector.byIndex i ∧
    effectiveFieldDataSelector (SetFieldDataName (some s) st) =
      FieldDataSelector.byName s ∧
    effectiveFieldDataSelector st = FieldDataSelector.byName nm := by
  refine ⟨rfl, rfl, rfl, rfl, ?_⟩
  unfold effectiveFieldDataSelector
  rw [h]

/-- C10 witness: on a mapper whose field data name was set to arr, the
name selector is in effect. -/
theorem C10_field_data_witness :
    effectiveFieldDataSelector (SetFieldDataName (some "arr") newMapper) =
      FieldDataSelector.byName "arr" :=
  (C10_field_data 2 "other" "arr" (SetFieldDataName (some "arr") newMapper)
    rfl).2.2.2.2

end VtkLabeledDataMapper
